import Mathlib

/- Shallow embedding of the voice-guided client-intake dialogue implemented by
the `process_voice` handler in `src/app.py` (lines 338-430) of the Torino tile
catalog application, together with proofs about its transition behaviour.

The handler receives one transcribed utterance, loads the conversation state
`session['client_guide'] = {'step': n, 'data': {...}}`, computes a transition
and answers with a JSON payload.  The session is Flask's signed-cookie session:
an in-place mutation of the state dict is persisted only when the handler also
executes an assignment `session['client_guide'] = state` during the request
(only the assignment sets `session.modified`, and only a modified session is
re-serialised into the cookie); a branch that assigned earlier shares the dict
object with later mutations, so the serialised value is the dict's final
contents.  The embedding models this explicitly in the `stored` component.

`add_client` (the client repository) is external to the handler and is passed
in as a fallible function; `spell_out` is called by the handler but its
definition is not part of the repository's files, so it is modelled from the
spec (see its doc comment).  Text normalisation models the Python string
methods on the ASCII fragment that the dialogue exercises. -/

/- ### Text normalisation: `text = request.json.get('text', '').lower().strip()`,
Python `str.title()`, and the substring tests `word in text`. -/

def pyLowerChar (c : Char) : Char :=
  if 'A' ≤ c ∧ c ≤ 'Z' then Char.ofNat (c.toNat + 32) else c

def pyUpperChar (c : Char) : Char :=
  if 'a' ≤ c ∧ c ≤ 'z' then Char.ofNat (c.toNat - 32) else c

def isAsciiLetter (c : Char) : Bool :=
  ('a' ≤ c && c ≤ 'z') || ('A' ≤ c && c ≤ 'Z')

/-- Python `str.lower()` on ASCII text. -/
def pyLower (s : String) : String :=
  String.mk (s.data.map pyLowerChar)

/-- The characters Python `str.strip()` removes. -/
def isPySpace (c : Char) : Bool :=
  c = ' ' || c = '\t' || c = '\n' || c = '\r' || c = Char.ofNat 11 || c = Char.ofNat 12

/-- Python `str.strip()`. -/
def pyStrip (s : String) : String :=
  String.mk (((s.data.dropWhile isPySpace).reverse.dropWhile isPySpace).reverse)

/-- The normalisation applied to the incoming utterance: `.lower().strip()`. -/
def normalizeText (s : String) : String := pyStrip (pyLower s)

/-- Python `str.title()` on ASCII text: a letter is uppercased when the
previous character is not a letter, lowercased otherwise. -/
def titleAux : List Char → Bool → List Char
  | [], _ => []
  | c :: rest, prevLetter =>
    (if prevLetter then pyLowerChar c else pyUpperChar c) :: titleAux rest (isAsciiLetter c)

def pyTitle (s : String) : String := String.mk (titleAux s.data false)

/-- Prefix test on character lists. -/
def listPrefix : List Char → List Char → Bool
  | [], _ => true
  | _ :: _, [] => false
  | a :: as, b :: bs => a == b && listPrefix as bs

/-- Contiguous-sublist test on character lists, the semantics of Python's
`needle in hay` on strings. -/
def hasSubList (needle : List Char) : List Char → Bool
  | [] => needle.isEmpty
  | c :: t => listPrefix needle (c :: t) || hasSubList needle t

/-- Python `needle in hay` for strings. -/
def pyContains (hay needle : String) : Bool := hasSubList needle.data hay.data

/-- Line 353: `any(word in text for word in ['cancel', 'stop', 'never mind'])`. -/
def cancelRequested (text : String) : Bool :=
  pyContains text "cancel" || pyContains text "stop" || pyContains text "never mind"

/-- Modelled from the spec: `spell_out` is called by `process_voice` but its
definition is not among the repository's files.  Spec section 4.1 requires "a
letter-by-letter rendering (each character of the name, separated by spaces or
delimiter)"; we render the characters of the name separated by single spaces. -/
def spell_out (s : String) : String :=
  String.intercalate " " (s.data.map fun c => String.mk [c])

/- ### The data model of `session['client_guide']`. -/

/-- The `data` dict of the conversation state: its keys are exactly the five
intake fields, each present or absent. -/
structure CollectedData where
  last_name : Option String
  first_name : Option String
  address : Option String
  phone : Option String
  email : Option String
deriving DecidableEq

def CollectedData.empty : CollectedData := ⟨none, none, none, none, none⟩

def CollectedData.isEmpty (d : CollectedData) : Bool :=
  d.last_name.isNone && d.first_name.isNone && d.address.isNone
    && d.phone.isNone && d.email.isNone

/-- The conversation state `{'step': ..., 'data': {...}}`. -/
structure ClientGuide where
  step : Nat
  data : CollectedData
deriving DecidableEq

/-- One JSON payload returned by `process_voice`.  A key that a branch omits is
modelled as `none`, and an omitted `reset` as `false` (it is falsy to the
caller). -/
structure VoiceResponse where
  success : Bool
  message : String
  tts : Option String
  next_step : Option Nat
  client_id : Option Nat
  reset : Bool
deriving DecidableEq

/-- One `add_client(full_name, address, phone, email)` request. -/
structure ClientReq where
  full_name : String
  address : String
  phone : String
  email : String
deriving DecidableEq

/-- Outcome of one request to `/process_voice`: the session value after the
request (per the Flask cookie-session semantics described at the top of the
file), the JSON response (`none` when the handler raises a `KeyError` on a
missing dict key and the app-level error handler answers with a 500 page), and
the `add_client` call made, if any, paired with its result. -/
structure ProcessResult where
  stored : Option ClientGuide
  response : Option VoiceResponse
  created : Option (ClientReq × Option Nat)
deriving DecidableEq

/-- Lines 357-363 of `src/app.py`. -/
def prompts : List String :=
  ["Last Name?",
   "First Name?",
   "Address, including street, city, state, and zip?",
   "Phone number?",
   "Email address?"]

/- ### The handler itself, lines 338-430 of `src/app.py`. -/

/-- The `process_voice` handler.  `authed` is `'user' in session`, `guide` is
the stored `session['client_guide']` (absent on a fresh session), `raw` the
incoming text, `repo` the behaviour of `add_client` for this request. -/
def process_voice (authed : Bool) (guide : Option ClientGuide) (raw : String)
    (repo : ClientReq → Option Nat) : ProcessResult :=
  if authed = false then
    ⟨guide, some ⟨false, "Login required.", none, none, none, false⟩, none⟩
  else
    let text := normalizeText raw
    if text = "" then
      ⟨guide, some ⟨false, "No text received.", none, none, none, false⟩, none⟩
    else
      let state := guide.getD ⟨0, CollectedData.empty⟩
      let step := state.step
      if cancelRequested text then
        ⟨some ⟨0, CollectedData.empty⟩,
         some ⟨true, "Client creation cancelled. What else can I help with?",
               none, none, none, true⟩,
         none⟩
      else if step = 0 then
        let ln := pyTitle text
        let spelled := spell_out ln
        ⟨some ⟨1, ⟨some ln, state.data.first_name, state.data.address,
                   state.data.phone, state.data.email⟩⟩,
         some ⟨true,
               "You said " ++ ln ++ ". Confirm spelling: " ++ spelled ++
                 ". Is that correct? Say 'yes' or correct it.",
               some ("Absolutely, let's start a new client profile! " ++
                 "Please answer the following questions. " ++ prompts.getD 0 ""),
               some 0, none, false⟩,
         none⟩
      else if step = 1 then
        if pyContains text "yes" || pyContains text "correct" then
          ⟨some ⟨2, state.data⟩,
           some ⟨true, "Great! Now, " ++ prompts.getD step "",
                 some ("Perfect. " ++ prompts.getD step ""),
                 some step, none, false⟩,
           none⟩
        else
          let ln := pyTitle text
          let spelled := spell_out ln
          ⟨guide,
           some ⟨true, "Got it, " ++ ln ++ ". Spelling: " ++ spelled ++ ". Correct now?",
                 some ("Got it. Confirm spelling: " ++ spelled ++ ". Is that correct?"),
                 some 1, none, false⟩,
           none⟩
      else if 2 ≤ step ∧ step ≤ 4 then
        let d1 : CollectedData :=
          if step = 2 then
            ⟨state.data.last_name, some text, state.data.address,
             state.data.phone, state.data.email⟩
          else if step = 3 then
            ⟨state.data.last_name, state.data.first_name, some text,
             state.data.phone, state.data.email⟩
          else
            ⟨state.data.last_name, state.data.first_name, state.data.address,
             some text, state.data.email⟩
        if step = 4 then
          let d2 : CollectedData :=
            ⟨d1.last_name, d1.first_name, d1.address, d1.phone, some text⟩
          if d2.first_name.isSome && d2.last_name.isSome then
            let full_name := d2.first_name.getD "" ++ " " ++ d2.last_name.getD ""
            if d2.address.isSome then
              let req : ClientReq := ⟨full_name, d2.address.getD "", text, text⟩
              match repo req with
              | some cid =>
                ⟨some ⟨0, CollectedData.empty⟩,
                 some ⟨true,
                       "Perfect! Client profile created for " ++ full_name ++
                         ". ID: " ++ toString cid ++ ". Ready for an estimate?",
                       some ("Client profile created for " ++ full_name ++
                         ". What would you like to do next?"),
                       none, some cid, true⟩,
                 some (req, some cid)⟩
              | none =>
                ⟨some ⟨5, d2⟩,
                 some ⟨false, "Error creating client. Try again.", none, none, none, false⟩,
                 some (req, none)⟩
            else
              ⟨some ⟨5, d2⟩, none, none⟩
          else
            ⟨some ⟨5, d2⟩, none, none⟩
        else
          ⟨some ⟨step + 1, d1⟩,
           some ⟨true, "Noted: " ++ text ++ ". Now, " ++ prompts.getD step "",
                 some (prompts.getD step ""),
                 some step, none, false⟩,
           none⟩
      else if step > 0 then
        ⟨guide, some ⟨false, "Please complete the client profile first.", none, none, none, false⟩,
         none⟩
      else
        ⟨guide, some ⟨false, "Try: \"create new client profile\" to start.", none, none, none, false⟩,
         none⟩

/-- Feeding a list of utterances through `process_voice` one request at a time:
the final stored state, every `add_client` call made along the way with its
result, and the response to the last utterance. -/
def runUtterances (authed : Bool) (repo : ClientReq → Option Nat)
    (g : Option ClientGuide) :
    List String → Option ClientGuide × List (ClientReq × Option Nat) × Option VoiceResponse
  | [] => (g, [], none)
  | u :: us =>
    let r := process_voice authed g u repo
    let rest := runUtterances authed repo r.stored us
    (rest.1, r.created.toList ++ rest.2.1, if us.isEmpty then r.response else rest.2.2)

/-- A repository in which client creation always succeeds with id 1. -/
def okRepo : ClientReq → Option Nat := fun _ => some 1

/-- A repository in which client creation always fails. -/
def failRepo : ClientReq → Option Nat := fun _ => none

/-- The spec's happy-path utterance sequence. -/
def happyUtterances : List String :=
  ["Smith", "yes", "John", "123 Main St, Springfield, IL 62704",
   "555-123-4567", "john@example.com"]

example : normalizeText "Smith" = "smith" := by decide
example : pyTitle "smith" = "Smith" := by decide
example : pyTitle "john@example.com" = "John@Example.Com" := by decide
example : spell_out "Smith" = "S m i t h" := by decide
example : cancelRequested "stopford" = true := by decide
example : cancelRequested "smith" = false := by decide

/- ### Helper lemmas. -/

theorem string_data_append (a b : String) : (a ++ b).data = a.data ++ b.data := rfl

theorem listPrefix_append_self (l r : List Char) : listPrefix l (l ++ r) = true := by
  induction l with
  | nil => rfl
  | cons c t ih => simp [listPrefix, ih]

theorem hasSubList_middle (needle pre post : List Char) :
    hasSubList needle (pre ++ (needle ++ post)) = true := by
  induction pre with
  | nil =>
    cases needle with
    | nil =>
      cases post with
      | nil => rfl
      | cons c t => rfl
    | cons c t =>
      have hp : listPrefix (c :: t) (c :: (t ++ post)) = true :=
        listPrefix_append_self (c :: t) post
      simp [hasSubList, hp]
  | cons c t ih => simp [hasSubList, ih]

/-- Python: a string always contains a contiguous piece of itself. -/
theorem pyContains_middle (pre needle post : String) :
    pyContains (pre ++ needle ++ post) needle = true := by
  show hasSubList needle.data (pre ++ needle ++ post).data = true
  rw [string_data_append, string_data_append, List.append_assoc]
  exact hasSubList_middle needle.data pre.data post.data

/-- Lines 353-355: when the normalised utterance contains a cancellation
keyword, the handler resets the session state to the idle/empty pair and
answers with the cancellation payload, whatever the current step was. -/
theorem cancel_branch_eq (g : Option ClientGuide) (raw : String)
    (repo : ClientReq → Option Nat)
    (hc : cancelRequested (normalizeText raw) = true) :
    process_voice true g raw repo =
      ⟨some ⟨0, CollectedData.empty⟩,
       some ⟨true, "Client creation cancelled. What else can I help with?",
             none, none, none, true⟩,
       none⟩ := by
  have hne : normalizeText raw ≠ "" := by
    intro h
    rw [h] at hc
    exact absurd hc (by decide)
  simp [process_voice, hne, hc]

/- ### Claim theorems. -/

/-- Claim C6: if the caller's session is not staff-authenticated, the handler
answers `success = false` and neither the stored conversation state nor the
repository is touched (lines 340-341 return before the session state is read). -/
theorem c6_unauthenticated_no_mutation (g : Option ClientGuide) (raw : String)
    (repo : ClientReq → Option Nat) :
    (process_voice false g raw repo).stored = g
    ∧ (process_voice false g raw repo).response.map VoiceResponse.success = some false
    ∧ (process_voice false g raw repo).created = none :=
  ⟨rfl, rfl, rfl⟩

/-- Claim C5: at every step (the state `g` is arbitrary, including absent or
idle) a non-empty utterance whose normalised text contains "cancel", "stop" or
"never mind" clears all collected fields, resets the step to Idle and the
response has `reset = true`. -/
theorem c5_cancel_resets (g : Option ClientGuide) (raw : String)
    (repo : ClientReq → Option Nat)
    (hc : cancelRequested (normalizeText raw) = true) :
    (process_voice true g raw repo).stored = some ⟨0, CollectedData.empty⟩
    ∧ (process_voice true g raw repo).response.map VoiceResponse.reset = some true := by
  rw [cancel_branch_eq g raw repo hc]
  exact ⟨rfl, rfl⟩

theorem c5_witness :
    (process_voice true (some ⟨3, ⟨some "Smith", some "john", none, none, none⟩⟩)
        "cancel" okRepo).stored = some ⟨0, CollectedData.empty⟩
    ∧ (process_voice true (some ⟨3, ⟨some "Smith", some "john", none, none, none⟩⟩)
        "cancel" okRepo).response.map VoiceResponse.reset = some true :=
  c5_cancel_resets (some ⟨3, ⟨some "Smith", some "john", none, none, none⟩⟩)
    "cancel" okRepo (by decide)

/-- Claim C10: the cancellation check is a plain lowercase-substring test run
before any step handler, so at every step an utterance whose normalised text
merely contains "cancel", "stop" or "never mind" as a substring (a surname
such as "Stopford" included) cancels the intake and discards every collected
field instead of being stored. -/
theorem c10_keyword_substring_cancels (g : Option ClientGuide) (raw : String)
    (repo : ClientReq → Option Nat)
    (hk : pyContains (normalizeText raw) "cancel" = true
        ∨ pyContains (normalizeText raw) "stop" = true
        ∨ pyContains (normalizeText raw) "never mind" = true) :
    process_voice true g raw repo =
      ⟨some ⟨0, CollectedData.empty⟩,
       some ⟨true, "Client creation cancelled. What else can I help with?",
             none, none, none, true⟩,
       none⟩ := by
  apply cancel_branch_eq
  rcases hk with h | h | h <;> simp [cancelRequested, h]

theorem c10_witness :
    process_voice true (some ⟨1, ⟨some "Smith", none, none, none, none⟩⟩)
        "Stopford" okRepo =
      ⟨some ⟨0, CollectedData.empty⟩,
       some ⟨true, "Client creation cancelled. What else can I help with?",
             none, none, none, true⟩,
       none⟩ :=
  c10_keyword_substring_cancels (some ⟨1, ⟨some "Smith", none, none, none, none⟩⟩)
    "Stopford" okRepo (Or.inr (Or.inl (by decide)))

/-- Claim C1 concerns the happy-path dialogue "Smith", "yes", "John",
"123 Main St, Springfield, IL 62704", "555-123-4567", "john@example.com" from
the idle state of an authenticated session.  This theorem evaluates the code on
that sequence: exactly one `add_client` call is made, but it happens at the
fifth utterance (the phone step), with full name "john Smith" (the incoming
text is lowercased and the first name is stored verbatim, so it is not
"John Smith") and with the phone text reused as the email; the sixth utterance
then starts a new intake, so the final response has `reset = false` and no
`client_id`, and the final stored state is a fresh step-1 intake whose last
name is the title-cased email address. -/
theorem c1_happy_path_code_eval :
    (runUtterances true okRepo (some ⟨0, CollectedData.empty⟩) happyUtterances).2.1 =
      [(⟨"john Smith", "123 main st, springfield, il 62704",
         "555-123-4567", "555-123-4567"⟩, some 1)]
    ∧ ((runUtterances true okRepo (some ⟨0, CollectedData.empty⟩) happyUtterances).2.2.map
        fun r => (r.success, r.reset, r.client_id)) = some (true, false, none)
    ∧ (runUtterances true okRepo (some ⟨0, CollectedData.empty⟩) happyUtterances).1 =
      some ⟨1, ⟨some "John@Example.Com", none, none, none, none⟩⟩ :=
  ⟨rfl, rfl, rfl⟩

/-- Claim C2 says the AwaitPhone (step 4) transition stores the phone and
advances to AwaitEmail without committing, the Client being created only by the
subsequent email utterance.  This theorem evaluates the code at step 4: the
handler stores the utterance as `phone`, immediately also stores the same text
as `email` and commits the Client right there (resetting to idle), and with the
state left at step 5 by a failed commit a subsequent utterance never reaches
any commit (step 5 has no handler). -/
theorem c2_commit_at_phone_step_code_eval :
    process_voice true (some ⟨4, ⟨some "Smith", some "john", some "123 main st", none, none⟩⟩)
        "555-123-4567" okRepo =
      ⟨some ⟨0, CollectedData.empty⟩,
       some ⟨true,
             "Perfect! Client profile created for john Smith. ID: 1. Ready for an estimate?",
             some "Client profile created for john Smith. What would you like to do next?",
             none, some 1, true⟩,
       some (⟨"john Smith", "123 main st", "555-123-4567", "555-123-4567"⟩, some 1)⟩
    ∧ (process_voice true
        (some ⟨5, ⟨some "Smith", some "john", some "123 main st",
                   some "555-123-4567", some "555-123-4567"⟩⟩)
        "john@example.com" okRepo).created = none :=
  ⟨rfl, rfl⟩

/-- Claim C3 says that after a failed commit the state is preserved and a
subsequent identical email utterance is accepted and the commit retried.  This
theorem evaluates the code: the failed commit (at the phone step, where the
code commits) does answer `success = false` with `reset = false` and does keep
the collected fields, but it leaves the step at 5, and at step 5 every
non-cancel utterance falls through to the `success = false` "Please complete
the client profile first." response without any repository call, so no retry is
possible. -/
theorem c3_commit_failure_dead_end_code_eval :
    ((process_voice true
        (some ⟨4, ⟨some "Smith", some "john", some "123 main st", none, none⟩⟩)
        "555-123-4567" failRepo).response.map fun r => (r.success, r.reset))
      = some (false, false)
    ∧ (process_voice true
        (some ⟨4, ⟨some "Smith", some "john", some "123 main st", none, none⟩⟩)
        "555-123-4567" failRepo).stored =
      some ⟨5, ⟨some "Smith", some "john", some "123 main st",
                some "555-123-4567", some "555-123-4567"⟩⟩
    ∧ process_voice true
        (some ⟨5, ⟨some "Smith", some "john", some "123 main st",
                   some "555-123-4567", some "555-123-4567"⟩⟩)
        "john@example.com" failRepo =
      ⟨some ⟨5, ⟨some "Smith", some "john", some "123 main st",
                 some "555-123-4567", some "555-123-4567"⟩⟩,
       some ⟨false, "Please complete the client profile first.", none, none, none, false⟩,
       none⟩ :=
  ⟨rfl, rfl, rfl⟩

/-- Claim C7 says a non-confirming utterance at AwaitLastNameConfirm leaves the
step unchanged and sets `collected['last_name']` to the title-cased utterance.
This theorem evaluates the code: the correction branch (lines 387-395) mutates
only the in-memory dict and, alone among the mutating branches, never executes
`session['client_guide'] = state`, so the Flask cookie session is not
re-serialised and the stored last name stays "Smith" even though the response
says "Got it, Smyth"; a second identical correction behaves the same, so the
stored value after two corrections is still the original "Smith", not the
re-title-cased "Smyth" the claim (and the spec) require. -/
theorem c7_correction_not_persisted_code_eval :
    (process_voice true (some ⟨1, ⟨some "Smith", none, none, none, none⟩⟩)
        "Smyth" okRepo).stored = some ⟨1, ⟨some "Smith", none, none, none, none⟩⟩
    ∧ ((process_voice true (some ⟨1, ⟨some "Smith", none, none, none, none⟩⟩)
        "Smyth" okRepo).response.map fun r => (r.success, r.next_step, pyContains r.message "Smyth"))
      = some (true, some 1, true)
    ∧ (process_voice true
        ((process_voice true (some ⟨1, ⟨some "Smith", none, none, none, none⟩⟩)
          "Smyth" okRepo).stored) "Smyth" okRepo).stored
      = some ⟨1, ⟨some "Smith", none, none, none, none⟩⟩ :=
  ⟨rfl, rfl, rfl⟩

/-- Claim C9 says a malformed stored step (outside the enum range 0-5) makes
the handler reset the state to Idle and report starting over.  Counterexample:
at step 9 the handler answers `success = false` with "Please complete the
client profile first." and leaves the malformed state in place, which is not
the reset to the idle/empty state the claim requires. -/
theorem c9_counterexample :
    process_voice true (some ⟨9, ⟨some "Smith", none, none, none, none⟩⟩)
        "hello" okRepo =
      ⟨some ⟨9, ⟨some "Smith", none, none, none, none⟩⟩,
       some ⟨false, "Please complete the client profile first.", none, none, none, false⟩,
       none⟩
    ∧ some (⟨9, ⟨some "Smith", none, none, none, none⟩⟩ : ClientGuide) ≠
        some (⟨0, CollectedData.empty⟩ : ClientGuide) :=
  ⟨rfl, by decide⟩

/-- Claim C9 as amended: with a malformed stored step (outside the enum range,
that is at least 6), processing a non-empty, non-cancelling utterance never
crashes — the handler returns the structured failure response "Please complete
the client profile first." — but the stored state is left unchanged rather
than being reset to Idle. -/
theorem c9_amended_malformed_state_no_crash (g : ClientGuide) (raw : String)
    (repo : ClientReq → Option Nat)
    (hstep : 6 ≤ g.step)
    (hne : normalizeText raw ≠ "")
    (hc : cancelRequested (normalizeText raw) = false) :
    process_voice true (some g) raw repo =
      ⟨some g,
       some ⟨false, "Please complete the client profile first.", none, none, none, false⟩,
       none⟩ := by
  have h0 : ¬ g.step = 0 := by omega
  have h1 : ¬ g.step = 1 := by omega
  have h2 : ¬ (2 ≤ g.step ∧ g.step ≤ 4) := by omega
  have h3 : g.step > 0 := by omega
  simp [process_voice, hne, hc, h0, h1, h2, h3]

theorem c9_amended_witness :
    process_voice true (some ⟨6, ⟨some "Smith", none, none, none, none⟩⟩)
        "hello" okRepo =
      ⟨some ⟨6, ⟨some "Smith", none, none, none, none⟩⟩,
       some ⟨false, "Please complete the client profile first.", none, none, none, false⟩,
       none⟩ :=
  c9_amended_malformed_state_no_crash ⟨6, ⟨some "Smith", none, none, none, none⟩⟩
    "hello" okRepo (by decide) (by decide) (by decide)

/-- Lines 365-375: the idle-step branch in full.  When the session is
authenticated, the stored step is 0 (or the state is absent, which defaults to
the idle/empty state), and the normalised utterance is non-empty and contains
no cancellation keyword, the handler stores the title-cased utterance as the
last name, advances to step 1, and answers with the confirmation message that
embeds the letter-by-letter spelling. -/
theorem idle_branch_eq (g : Option ClientGuide) (raw : String)
    (repo : ClientReq → Option Nat)
    (hstep : (g.getD ⟨0, CollectedData.empty⟩).step = 0)
    (hne : normalizeText raw ≠ "")
    (hc : cancelRequested (normalizeText raw) = false) :
    process_voice true g raw repo =
      ⟨some ⟨1, ⟨some (pyTitle (normalizeText raw)),
                 (g.getD ⟨0, CollectedData.empty⟩).data.first_name,
                 (g.getD ⟨0, CollectedData.empty⟩).data.address,
                 (g.getD ⟨0, CollectedData.empty⟩).data.phone,
                 (g.getD ⟨0, CollectedData.empty⟩).data.email⟩⟩,
       some ⟨true,
             "You said " ++ pyTitle (normalizeText raw) ++ ". Confirm spelling: " ++
               spell_out (pyTitle (normalizeText raw)) ++
               ". Is that correct? Say 'yes' or correct it.",
             some ("Absolutely, let's start a new client profile! " ++
               "Please answer the following questions. " ++ prompts.getD 0 ""),
             some 0, none, false⟩,
       none⟩ := by
  simp [process_voice, hne, hc, hstep]

/-- Claim C8: at step Idle an authenticated, non-cancel, non-empty utterance is
stored title-cased as the last name, the machine advances to step 1
(AwaitLastNameConfirm), and the confirmation response includes the
letter-by-letter spelling of the stored name. -/
theorem c8_idle_capture (g : Option ClientGuide) (raw : String)
    (repo : ClientReq → Option Nat)
    (hstep : (g.getD ⟨0, CollectedData.empty⟩).step = 0)
    (hne : normalizeText raw ≠ "")
    (hc : cancelRequested (normalizeText raw) = false) :
    ((process_voice true g raw repo).stored.map ClientGuide.step) = some 1
    ∧ ((process_voice true g raw repo).stored.map fun s => s.data.last_name)
      = some (some (pyTitle (normalizeText raw)))
    ∧ ((process_voice true g raw repo).response.map fun r =>
        pyContains r.message (spell_out (pyTitle (normalizeText raw))))
      = some true := by
  rw [idle_branch_eq g raw repo hstep hne hc]
  refine ⟨rfl, rfl, ?_⟩
  show some (pyContains ("You said " ++ pyTitle (normalizeText raw) ++ ". Confirm spelling: " ++
      spell_out (pyTitle (normalizeText raw)) ++
      ". Is that correct? Say 'yes' or correct it.")
    (spell_out (pyTitle (normalizeText raw)))) = some true
  rw [pyContains_middle]

theorem c8_witness :
    ((process_voice true (some ⟨0, CollectedData.empty⟩) "Smith" okRepo).stored.map
        ClientGuide.step) = some 1
    ∧ ((process_voice true (some ⟨0, CollectedData.empty⟩) "Smith" okRepo).stored.map
        fun s => s.data.last_name) = some (some (pyTitle (normalizeText "Smith")))
    ∧ ((process_voice true (some ⟨0, CollectedData.empty⟩) "Smith" okRepo).response.map
        fun r => pyContains r.message (spell_out (pyTitle (normalizeText "Smith"))))
      = some true :=
  c8_idle_capture (some ⟨0, CollectedData.empty⟩) "Smith" okRepo
    (by decide) (by decide) (by decide)

/-- The invariant of spec section 3: the stored step is Idle (0) exactly when
the collected-fields dict is empty. -/
def guideInvariant (g : ClientGuide) : Prop := g.step = 0 ↔ g.data.isEmpty = true


/-- Claim C4: for every session and every transition of the handler, if the
previously stored conversation state satisfies the invariant (absence of a
state counts as idle), then the state stored after the request satisfies it
too: `step = 0` exactly when `collected` is empty. -/
theorem c4_step_idle_iff_collected_empty (authed : Bool) (g : Option ClientGuide)
    (raw : String) (repo : ClientReq → Option Nat) (st : ClientGuide)
    (hg : ∀ s, g = some s → guideInvariant s)
    (h : (process_voice authed g raw repo).stored = some st) :
    guideInvariant st := by
  cases authed with
  | false => exact hg st h
  | true =>
    by_cases hne : normalizeText raw = ""
    · have heq : (process_voice true g raw repo).stored = g := by
        simp [process_voice, hne]
      rw [heq] at h
      exact hg st h
    · cases hcb : cancelRequested (normalizeText raw) with
      | true =>
        rw [cancel_branch_eq g raw repo hcb] at h
        injection h with h
        subst h
        simp [guideInvariant, CollectedData.empty, CollectedData.isEmpty]
      | false =>
        cases g with
        | none =>
          rw [idle_branch_eq none raw repo rfl hne hcb] at h
          injection h with h
          subst h
          simp [guideInvariant, CollectedData.isEmpty]
        | some s =>
          obtain ⟨sstep, sdata⟩ := s
          have hinv := hg ⟨sstep, sdata⟩ rfl
          by_cases h0 : sstep = 0
          · subst h0
            rw [idle_branch_eq (some ⟨0, sdata⟩) raw repo rfl hne hcb] at h
            injection h with h
            subst h
            simp [guideInvariant, CollectedData.isEmpty]
          · by_cases h1 : sstep = 1
            · subst h1
              cases hy : (pyContains (normalizeText raw) "yes"
                  || pyContains (normalizeText raw) "correct") with
              | true =>
                have heq : (process_voice true (some ⟨1, sdata⟩) raw repo).stored =
                    some ⟨2, sdata⟩ := by
                  simp [process_voice, hne, hcb, hy]
                rw [heq] at h
                injection h with h
                subst h
                have hemp : ¬ sdata.isEmpty = true := fun he => by
                  have := hinv.mpr he
                  simp at this
                simp [guideInvariant, hemp]
              | false =>
                have heq : (process_voice true (some ⟨1, sdata⟩) raw repo).stored =
                    some ⟨1, sdata⟩ := by
                  simp [process_voice, hne, hcb, hy]
                rw [heq] at h
                injection h with h
                subst h
                exact hinv
            · by_cases h2 : sstep = 2
              · subst h2
                have heq : (process_voice true (some ⟨2, sdata⟩) raw repo).stored =
                    some ⟨3, ⟨sdata.last_name, some (normalizeText raw), sdata.address,
                              sdata.phone, sdata.email⟩⟩ := by
                  simp [process_voice, hne, hcb]
                rw [heq] at h
                injection h with h
                subst h
                simp [guideInvariant, CollectedData.isEmpty]
              · by_cases h3 : sstep = 3
                · subst h3
                  have heq : (process_voice true (some ⟨3, sdata⟩) raw repo).stored =
                      some ⟨4, ⟨sdata.last_name, sdata.first_name, some (normalizeText raw),
                                sdata.phone, sdata.email⟩⟩ := by
                    simp [process_voice, hne, hcb]
                  rw [heq] at h
                  injection h with h
                  subst h
                  simp [guideInvariant, CollectedData.isEmpty]
                · by_cases h4 : sstep = 4
                  · subst h4
                    have hch : (process_voice true (some ⟨4, sdata⟩) raw repo).stored =
                          some ⟨0, CollectedData.empty⟩
                        ∨ (process_voice true (some ⟨4, sdata⟩) raw repo).stored =
                          some ⟨5, ⟨sdata.last_name, sdata.first_name, sdata.address,
                                    some (normalizeText raw), some (normalizeText raw)⟩⟩ := by
                      cases hfn : (sdata.first_name.isSome && sdata.last_name.isSome) with
                      | false =>
                        right
                        simp [process_voice, hne, hcb, hfn]
                      | true =>
                        cases had : sdata.address.isSome with
                        | false =>
                          right
                          simp [process_voice, hne, hcb, hfn, had]
                        | true =>
                          cases hre : repo ⟨sdata.first_name.getD "" ++ " " ++
                              sdata.last_name.getD "", sdata.address.getD "",
                              normalizeText raw, normalizeText raw⟩ with
                          | none =>
                            right
                            simp [process_voice, hne, hcb, hfn, had, hre]
                          | some cid =>
                            left
                            simp [process_voice, hne, hcb, hfn, had, hre]
                    rcases hch with hh | hh
                    · rw [hh] at h
                      injection h with h
                      subst h
                      simp [guideInvariant, CollectedData.empty, CollectedData.isEmpty]
                    · rw [hh] at h
                      injection h with h
                      subst h
                      simp [guideInvariant, CollectedData.isEmpty]
                  · have hgt : sstep > 0 := by omega
                    have hno : ¬ (2 ≤ sstep ∧ sstep ≤ 4) := by omega
                    have heq : (process_voice true (some ⟨sstep, sdata⟩) raw repo).stored =
                        some ⟨sstep, sdata⟩ := by
                      simp [process_voice, hne, hcb, h0, h1, hno, hgt]
                    rw [heq] at h
                    injection h with h
                    subst h
                    exact hinv

theorem c4_witness : guideInvariant ⟨1, ⟨some "Smith", none, none, none, none⟩⟩ :=
  c4_step_idle_iff_collected_empty true (some ⟨0, CollectedData.empty⟩) "Smith" okRepo
    ⟨1, ⟨some "Smith", none, none, none, none⟩⟩
    (fun s hs => by
      injection hs with hs
      subst hs
      simp [guideInvariant, CollectedData.empty, CollectedData.isEmpty])
    (by decide)
